import Mathlib

/-
Verification development for the sidekiq-rs worker server core
(src/lib.rs, src/server.rs).

The embedding is shallow:
* Redis side effects are recorded as an ordered trace of `RedisEvent`s
  (a `pipe` models one pipelined Redis call, a `single` one plain command).
* The lazy futures of the source (`FutureJob = BoxFuture<JobAgent, (JobAgent, Error)>`)
  are modelled as functions from the execution-time clock reading to a
  result together with the trace of Redis events the execution emits.
  `fmap` mirrors `Future::map` (runs on success only), `fthen` mirrors
  `Future::then` (always runs).
* Clock readings (`chrono::UTC::now()`) are explicit `Nat` parameters:
  `pack_job` receives the clock reading taken while the pipeline is being
  constructed, and running the returned future receives the clock reading
  at execution time.
* Randomness (server id, worker id, weighted queue choice), the redis
  connection pool, pid and hostname are explicit parameters.
-/

/-- Minimal JSON value model for job arguments and producer-defined fields. -/
inductive JValue where
  | null : JValue
  | bool (b : Bool) : JValue
  | num (n : Int) : JValue
  | str (s : String) : JValue
  | arr (xs : List JValue) : JValue
  | obj (fields : List (String × JValue)) : JValue

/-- Modelled from the spec: `RetryInfo` (src/job.rs is not under src/):
`{ retry_count, error_message, error_class, failed_at, retried_at }`. -/
structure RetryInfo where
  retry_count : Nat
  error_message : String
  error_class : String
  failed_at : Nat
  retried_at : Option Nat

/-- Modelled from the spec: the `Job` carrier (src/job.rs is not under src/):
`class`, `args`, `queue`, `jid`, optional `retry_info`, and the `namespace`
field populated by the core after dequeue. -/
structure Job where
  «class» : String
  args : List JValue
  queue : String
  jid : String
  retry_info : Option RetryInfo
  «namespace» : String

/-- Modelled from the spec: `JobAgent` (src/job_agent.rs is not under src/) is a
shared handle to a `Job`; stages of one dispatch all see the same job. -/
structure JobAgent where
  job : Job

def JobAgent.new (j : Job) : JobAgent := ⟨j⟩

def JobAgent.«class» (a : JobAgent) : String := a.job.«class»

def JobAgent.queue (a : JobAgent) : String := a.job.queue

/-- Error kinds of src/errors.rs as used by src/server.rs (the error-chain
`ErrorKind` enum; `bail!` and `err.into()` produce these). -/
inductive ErrorKind where
  | ZeroConcurrency : ErrorKind
  | NoJobHandler : ErrorKind
  | ZeroQueue : ErrorKind
  | RedisPool : ErrorKind
  | UnknownJobClass (className : String) : ErrorKind
  | JobDecodeError (msg : String) : ErrorKind
  | HandlerError (msg : String) : ErrorKind
deriving DecidableEq, Repr

/-- One Redis command, as issued by src/server.rs. The `hset` value written for
the `workers` hash is kept structurally (the source serializes
`{"queue": .., "payload": job, "run_at": now}` to a JSON string). -/
inductive RedisCmd where
  | hset (key field : String) (queue : String) (payload : Job) (runAt : Nat) : RedisCmd
  | expire (key : String) (ttl : Nat) : RedisCmd
  | hdel (key field : String) : RedisCmd
  | incr (key : String) (amount : Nat) : RedisCmd
  | hsetMultiple (key : String) (info busy beat : String) : RedisCmd
  | sadd (key member : String) : RedisCmd

/-- One Redis interaction: a pipelined call (`Pipeline::new()....query()`)
or a single command on a connection. -/
inductive RedisEvent where
  | pipe (cmds : List RedisCmd) : RedisEvent
  | single (cmd : RedisCmd) : RedisEvent

/-- Result type threaded through the dispatch pipeline: the source's
`FutureJob` resolves to a `JobAgent` or to `(JobAgent, Error)`. -/
abbrev DispatchResult := Except (JobAgent × ErrorKind) JobAgent

/-- A lazy dispatch future: given the clock reading at execution time it
yields the dispatch result and the ordered trace of Redis events emitted. -/
abbrev FutureJob := Nat → DispatchResult × List RedisEvent

/-- `futures::future::ok`. -/
def fok (a : JobAgent) : FutureJob := fun _ => (.ok a, [])

/-- `futures::future::err`. -/
def ferr (e : JobAgent × ErrorKind) : FutureJob := fun _ => (.error e, [])

/-- `Future::map`: the closure runs only when the input future resolves
successfully; its Redis events are appended to the trace. -/
def fmap (f : FutureJob) (g : Nat → JobAgent → JobAgent × List RedisEvent) : FutureJob :=
  fun t =>
    match f t with
    | (.ok a, tr) =>
      let p := g t a
      (.ok p.fst, tr ++ p.snd)
    | (.error e, tr) => (.error e, tr)

/-- `Future::then`: the closure always runs, observing the result; here it
only emits Redis events (the terminal stats write). -/
def fthen (f : FutureJob) (g : DispatchResult → List RedisEvent) : FutureJob :=
  fun t =>
    let p := f t
    (p.fst, p.snd ++ g p.fst)

/-- Modelled from the spec: a middleware stage (src/middleware.rs is not under
src/) exposes `before` and `after`, each taking the deferred continuation and
returning a new deferred continuation. -/
structure MiddleWare where
  before : FutureJob → FutureJob
  after : FutureJob → FutureJob

/-- Modelled from the spec: a job handler (src/job_handler.rs is not under
src/) receives the agent and yields success or a typed error, possibly
emitting Redis events; `perform` chains it onto the continuation so that a
failed continuation short-circuits past the handler. -/
structure JobHandler where
  run : Nat → JobAgent → DispatchResult × List RedisEvent

/-- `handler.cloned().perform(continuation)` of src/server.rs line 235. -/
def JobHandler.perform (h : JobHandler) (f : FutureJob) : FutureJob :=
  fun t =>
    match f t with
    | (.ok a, tr) =>
      let p := h.run t a
      (p.fst, tr ++ p.snd)
    | (.error e, tr) => (.error e, tr)

/-- Association-list stand-in for `BTreeMap<String, Box<JobHandler>>`:
lookup by exact key. -/
def lookupHandler (hs : List (String × JobHandler)) (k : String) : Option JobHandler :=
  (hs.find? (fun p => p.fst == k)).map (fun p => p.snd)

/-- `BTreeMap::insert`: replace the binding when the key is present,
otherwise add it. -/
def insertHandler (hs : List (String × JobHandler)) (k : String) (h : JobHandler) :
    List (String × JobHandler) :=
  match hs with
  | [] => [(k, h)]
  | p :: rest => if p.fst == k then (k, h) :: rest else p :: insertHandler rest k h

/-- `SidekiqServerBuilder` of src/server.rs lines 44-51. -/
structure SidekiqServerBuilder where
  concurrency : Nat
  middlewares : List MiddleWare
  job_handlers : List (String × JobHandler)
  queues : List String
  weights : List Float

/-- `SidekiqServerBuilder::new` (line 54): concurrency 10, everything else
default-empty. -/
def SidekiqServerBuilder.new : SidekiqServerBuilder :=
  { concurrency := 10, middlewares := [], job_handlers := [], queues := [], weights := [] }

/-- Builder setter `concurrency` (line 57). -/
def SidekiqServerBuilder.withConcurrency (b : SidekiqServerBuilder) (c : Nat) :
    SidekiqServerBuilder :=
  { b with concurrency := c }

/-- Builder setter `middleware` (line 61). -/
def SidekiqServerBuilder.middleware (b : SidekiqServerBuilder) (m : MiddleWare) :
    SidekiqServerBuilder :=
  { b with middlewares := b.middlewares ++ [m] }

/-- Builder setter `job_handler` (line 67): inserts into the `BTreeMap`. -/
def SidekiqServerBuilder.job_handler (b : SidekiqServerBuilder) (name : String)
    (h : JobHandler) : SidekiqServerBuilder :=
  { b with job_handlers := insertHandler b.job_handlers name h }

/-- Builder setter `queue` (line 73): pushes parallel name and weight. -/
def SidekiqServerBuilder.queue (b : SidekiqServerBuilder) (name : String) (weight : Float) :
    SidekiqServerBuilder :=
  { b with queues := b.queues ++ [name], weights := b.weights ++ [weight] }

/-- `SidekiqServer` of src/server.rs lines 83-98 (the redis pool, cpu pool and
signal channel are external resources and are not part of the embedded state). -/
structure SidekiqServer where
  «namespace» : String
  job_handlers : List (String × JobHandler)
  middlewares : List MiddleWare
  queues : List String
  weights : List Float
  started_at : Nat
  rs : String
  pid : Nat
  worker_info : List (String × Bool)
  concurrency : Nat
  force_quite_timeout : Nat

/-- `SidekiqServer::with_builder` (src/server.rs lines 102-150).
`redisOk` stands for whether the r2d2 redis pool can be established (its
creation, with `?`, happens after the three configuration checks);
`server_id` is the 12-char random identity, `buildTime` the `UTC::now()`
reading, `pid` the `getpid()` result. Note lines 137 and 146: the server is
constructed with `job_handlers: BTreeMap::new()` and `middlewares: vec![]`,
not with the builder's collections. -/
def SidekiqServer.with_builder (builder : SidekiqServerBuilder) (redisOk : Bool)
    (server_id : String) (buildTime : Nat) (pid : Nat) :
    Except ErrorKind SidekiqServer :=
  if builder.concurrency = 0 then
    .error .ZeroConcurrency
  else if builder.job_handlers.length = 0 then
    .error .NoJobHandler
  else if builder.queues.length = 0 then
    .error .ZeroQueue
  else if redisOk = false then
    .error .RedisPool
  else
    .ok { «namespace» := ""
          job_handlers := []
          queues := builder.queues
          weights := builder.weights
          started_at := buildTime
          pid := pid
          worker_info := []
          concurrency := builder.concurrency
          force_quite_timeout := 10
          middlewares := []
          rs := server_id }

/-- `SidekiqServer::with_namespace` (lines 360-366). -/
def SidekiqServer.with_namespace (s : SidekiqServer) (snippet : String) : String :=
  if s.«namespace» = "" then snippet else s.«namespace» ++ ":" ++ snippet

/-- `SidekiqServer::with_server_id` (lines 368-370). -/
def SidekiqServer.with_server_id (s : SidekiqServer) (snippet : String) : String :=
  s.rs ++ ":" ++ snippet

/-- `SidekiqServer::queue_name` (lines 372-374). -/
def SidekiqServer.queue_name (s : SidekiqServer) (name : String) : String :=
  s.with_namespace ("queue:" ++ name)

/-- `SidekiqServer::identity` (lines 352-357); `hostname` is the
`rust_gethostname()` result. -/
def SidekiqServer.identity (s : SidekiqServer) (hostname : String) : String :=
  hostname ++ ":" ++ toString s.pid ++ ":" ++ s.rs

/-- Rendering of `UTC::now().format("%Y-%m-%d")`, modelled as the UTC day
index of the clock reading (seconds since epoch): two instants render to the
same string exactly when they fall on the same UTC day. -/
def dateFormat (t : Nat) : String := toString (t / 86400)

/-- The handler-stage wrapper of `pack_job` (src/server.rs lines 211-247),
applied when `job_handlers` contains the agent's class: map an hset+expire
pipeline (the `workers` entry, TTL 5) onto the incoming continuation, run
the handler, then map an hdel onto the outcome. Both instrumentation
closures are `Future::map`s, so each runs only when the value flowing into
it is a success. -/
def handlerStage (handler : JobHandler) (worker_key worker_id : String)
    (c : FutureJob) : FutureJob :=
  let c1 := fmap c (fun t a =>
    (a, [RedisEvent.pipe
          [RedisCmd.hset worker_key worker_id a.queue a.job t,
           RedisCmd.expire worker_key 5]]))
  let c2 := handler.perform c1
  fmap c2 (fun _ a => (a, [RedisEvent.single (RedisCmd.hdel worker_key worker_id)]))

/-- The pre-terminal continuation of `pack_job` (lines 201-256): seed the
continuation with the agent, apply every middleware `before` in registration
order, apply the handler stage when a handler is registered for the agent's
class — otherwise replace the continuation with the failure
`UnknownJobClass(class)` — then apply every middleware `after` in
registration order. -/
def dispatchCore (s : SidekiqServer) (job : Job) (worker_id : String) : FutureJob :=
  let agent := JobAgent.new job
  let c0 : FutureJob := fok agent
  let c1 := s.middlewares.foldl (fun c m => m.before c) c0
  let worker_key := s.with_namespace (s.with_server_id "workers")
  let c2 :=
    match lookupHandler s.job_handlers agent.«class» with
    | some handler => handlerStage handler worker_key worker_id c1
    | none => ferr (agent, .UnknownJobClass agent.«class»)
  s.middlewares.foldl (fun c m => m.after c) c2

/-- The terminal stats pipeline of `pack_job` (lines 266-283): one pipelined
call incrementing the dated then the undated member of the pair selected by
the final result. The two dated keys are built with `UTC::now()` read while
`pack_job` constructs the future, which is the `packTime` argument here. -/
def statWrite (s : SidekiqServer) (packTime : Nat) (r : DispatchResult) :
    List RedisEvent :=
  let proceeded_key_date := s.with_namespace ("stat:processed:" ++ dateFormat packTime)
  let proceeded_key := s.with_namespace "stat:processed"
  let failed_key_date := s.with_namespace ("stat:failed:" ++ dateFormat packTime)
  let failed_key := s.with_namespace "stat:failed"
  match r with
  | .ok _ =>
    [RedisEvent.pipe [RedisCmd.incr proceeded_key_date 1, RedisCmd.incr proceeded_key 1]]
  | .error _ =>
    [RedisEvent.pipe [RedisCmd.incr failed_key_date 1, RedisCmd.incr failed_key 1]]

/-- `SidekiqServer::pack_job` (src/server.rs lines 201-285): the dispatch
pipeline followed by the terminal `then` writing the stats. `worker_id` is
the worker thread's `WORKER_ID`, `packTime` the clock reading during
construction; the returned future takes the clock reading at execution. -/
def SidekiqServer.pack_job (s : SidekiqServer) (job : Job) (worker_id : String)
    (packTime : Nat) : FutureJob :=
  fthen (dispatchCore s job worker_id) (statWrite s packTime)

/-- `SidekiqServer::poll` (src/server.rs lines 289-317). `choice` is the
queue picked by the weighted random draw, `brpopResult` the payload string of
a `BRPOP` hit on `queue_name(choice)` when there is one, `parse` the
`serde_json::from_str` decoding of the payload into a `Job` (job
deserialization lives in src/job.rs, which is not under src/), and
`pollTime` the `UTC::now()` reading. On a hit: decode, stamp `retried_at`
into a present `retry_info`, stamp `namespace`, return the job; a decode
failure propagates as an error. -/
def SidekiqServer.poll (s : SidekiqServer) (choice : String)
    (brpopResult : Option String) (parse : String → Except String Job)
    (pollTime : Nat) : Except ErrorKind (Option Job) :=
  match brpopResult with
  | some payload =>
    match parse payload with
    | .error e => .error (.JobDecodeError e)
    | .ok job0 =>
      let job1 :=
        match job0.retry_info with
        | some ri => { job0 with retry_info := some { ri with retried_at := some pollTime } }
        | none => job0
      let job2 := { job1 with «namespace» := s.«namespace» }
      .ok (some job2)
  | none => .ok none

/-- The `busy` heartbeat field of `report_alive` (src/server.rs line 337):
the count of `worker_info` entries whose flag is true, rendered as a string. -/
def busyField (worker_info : List (String × Bool)) : String :=
  toString (worker_info.filter (fun v => v.snd)).length

/-- The `info` heartbeat field of `report_alive` (lines 326-336), kept
structurally instead of as a JSON string. -/
structure HeartbeatInfo where
  hostname : String
  started_at : Nat
  pid : Nat
  concurrency : Nat
  queues : List String
  identity : String

/-- Rendering of the heartbeat `info` JSON; kept abstract as a tagged string
of its structural content so distinct contents stay distinct. -/
def renderInfo (i : HeartbeatInfo) : String :=
  i.hostname ++ "|" ++ toString i.started_at ++ "|" ++ toString i.pid ++ "|" ++
    toString i.concurrency ++ "|" ++ String.intercalate "," i.queues ++ "|" ++ i.identity

/-- `SidekiqServer::report_alive` (src/server.rs lines 323-350): one
pipelined call writing the heartbeat hash at the namespaced identity key
(`info`, `busy`, `beat`), setting its TTL to 5, and adding the identity to
the namespaced `processes` set. `now` is the `UTC::now()` reading, rendered
into `beat`. -/
def SidekiqServer.report_alive (s : SidekiqServer) (hostname : String) (now : Nat) :
    List RedisEvent :=
  let info : HeartbeatInfo :=
    { hostname := hostname
      started_at := s.started_at
      pid := s.pid
      concurrency := s.concurrency
      queues := s.queues
      identity := s.identity hostname }
  [RedisEvent.pipe
    [RedisCmd.hsetMultiple (s.with_namespace (s.identity hostname))
       (renderInfo info) (busyField s.worker_info) (toString now),
     RedisCmd.expire (s.with_namespace (s.identity hostname)) 5,
     RedisCmd.sadd (s.with_namespace "processes") (s.identity hostname)]]

/-- A handler that always succeeds without Redis traffic (shape of the
`printer_handler` example). -/
def trivialHandler : JobHandler := ⟨fun _ a => (.ok a, [])⟩

/-- A handler that always fails (shape of the `error_handler` example). -/
def failingHandler : JobHandler := ⟨fun _ a => (.error (a, .HandlerError "oops"), [])⟩

/-- A middleware whose hooks pass the continuation through unchanged. -/
def idMiddleware : MiddleWare := ⟨fun c => c, fun c => c⟩

/-- Concrete job used to exercise the dispatch pipeline. -/
def demoJob : Job :=
  { «class» := "printer", args := [], queue := "default", jid := "jid1",
    retry_info := none, «namespace» := "" }

/-- Concrete job carrying retry information, used to exercise `poll`. -/
def demoRetryJob : Job :=
  { «class» := "printer", args := [JValue.num 1], queue := "default", jid := "jid2",
    retry_info := some { retry_count := 2, error_message := "em", error_class := "ec",
                         failed_at := 100, retried_at := none },
    «namespace» := "" }

/-- Concrete builder: one handler and one queue registered on a fresh builder. -/
def demoBuilder : SidekiqServerBuilder :=
  (SidekiqServerBuilder.new.job_handler "printer" trivialHandler).queue "default" 1.0

/-- `demoBuilder` with one middleware registered as well. -/
def demoBuilderM : SidekiqServerBuilder := demoBuilder.middleware idMiddleware

/-- The server value `with_builder demoBuilder true "rs0" 0 42` constructs. -/
def builtServer : SidekiqServer :=
  { «namespace» := "", job_handlers := [], queues := ["default"], weights := [1.0],
    started_at := 0, pid := 42, worker_info := [], concurrency := 10,
    force_quite_timeout := 10, middlewares := [], rs := "rs0" }

/-- A server state holding a registered (failing) handler, to exercise the
handler stage of the dispatch pipeline. -/
def demoServerH : SidekiqServer :=
  { «namespace» := "", job_handlers := [("printer", failingHandler)], middlewares := [],
    queues := ["default"], weights := [1.0], started_at := 0, rs := "rs0", pid := 42,
    worker_info := [], concurrency := 1, force_quite_timeout := 10 }

/-- `demoServerH` with the non-empty namespace "app". -/
def nsServer : SidekiqServer := { demoServerH with «namespace» := "app" }

/-- Decode function used to exercise `poll`: one recognized payload. -/
def demoParse : String → Except String Job :=
  fun s => if s = "good" then .ok demoRetryJob else .error "malformed"

/-- Does a trace contain an `hset` command (a `workers` hash write)? -/
def hasHset (tr : List RedisEvent) : Bool :=
  tr.any (fun e =>
    match e with
    | .pipe cmds => cmds.any (fun c =>
        match c with
        | RedisCmd.hset _ _ _ _ _ => true
        | _ => false)
    | .single (RedisCmd.hset _ _ _ _ _) => true
    | .single _ => false)

/-- Does a trace contain an `hdel` command (a `workers` hash delete)? -/
def hasHdel (tr : List RedisEvent) : Bool :=
  tr.any (fun e =>
    match e with
    | .pipe cmds => cmds.any (fun c =>
        match c with
        | RedisCmd.hdel _ _ => true
        | _ => false)
    | .single (RedisCmd.hdel _ _) => true
    | .single _ => false)

/-- Helper: the exact shape of every server a successful `with_builder`
returns (notably `job_handlers`, `middlewares` and `worker_info` all empty,
the queues, weights and concurrency taken from the builder). -/
theorem with_builder_ok_shape (b : SidekiqServerBuilder) (redisOk : Bool)
    (sid : String) (bt pid : Nat) (s : SidekiqServer)
    (h : SidekiqServer.with_builder b redisOk sid bt pid = .ok s) :
    s = { «namespace» := "", job_handlers := [], queues := b.queues, weights := b.weights,
          started_at := bt, pid := pid, worker_info := [], concurrency := b.concurrency,
          force_quite_timeout := 10, middlewares := [], rs := sid } := by
  unfold SidekiqServer.with_builder at h
  split at h
  · exact absurd h (by simp)
  · split at h
    · exact absurd h (by simp)
    · split at h
      · exact absurd h (by simp)
      · split at h
        · exact absurd h (by simp)
        · exact (Except.ok.injEq _ _ ▸ h).symm

/-- C1: evaluation at the failing input. `demoBuilder` registers one handler,
`with_builder` succeeds, yet the handler registry of the returned server is
empty: src/server.rs line 137 constructs the server with
`job_handlers: BTreeMap::new()` instead of the collected registry, so a job
whose class was registered on the builder cannot find its handler during
dispatch. The concurrency half of the invariant does hold (third conjunct). -/
theorem C1_built_server_registry_empty :
    demoBuilder.job_handlers.length = 1 ∧
    (SidekiqServer.with_builder demoBuilder true "rs0" 0 42).map
        (fun s => s.job_handlers.length) = .ok 0 ∧
    (SidekiqServer.with_builder demoBuilder true "rs0" 0 42).map
        (fun s => decide (1 ≤ s.concurrency)) = .ok true :=
  ⟨rfl, rfl, rfl⟩

/-- C2: evaluation at the failing input. `demoBuilderM` registers one
middleware, `with_builder` succeeds, yet the middleware sequence of the
returned server is empty: src/server.rs line 146 constructs the server with
`middlewares: vec![]` instead of the collected sequence, so the registered
stages are never applied to any dispatch. -/
theorem C2_built_server_middlewares_empty :
    demoBuilderM.middlewares.length = 1 ∧
    (SidekiqServer.with_builder demoBuilderM true "rs0" 0 42).map
        (fun s => s.middlewares.length) = .ok 0 :=
  ⟨rfl, rfl⟩

/-- C7: `with_builder` fails with `ZeroConcurrency` exactly when the
concurrency is 0, with `NoJobHandler` exactly when the concurrency check
passed and the registry is empty, with `ZeroQueue` exactly when the first two
checks passed and no queue is registered — the checks run in that order —
and when all three pass and the redis pool can be established it returns a
server. -/
theorem C7_build_error_cases (b : SidekiqServerBuilder) (redisOk : Bool)
    (sid : String) (bt pid : Nat) :
    (SidekiqServer.with_builder b redisOk sid bt pid = .error .ZeroConcurrency ↔
      b.concurrency = 0) ∧
    (SidekiqServer.with_builder b redisOk sid bt pid = .error .NoJobHandler ↔
      (b.concurrency ≠ 0 ∧ b.job_handlers = [])) ∧
    (SidekiqServer.with_builder b redisOk sid bt pid = .error .ZeroQueue ↔
      (b.concurrency ≠ 0 ∧ b.job_handlers ≠ [] ∧ b.queues = [])) ∧
    ((b.concurrency ≠ 0 ∧ b.job_handlers ≠ [] ∧ b.queues ≠ [] ∧ redisOk = true) →
      ∃ s, SidekiqServer.with_builder b redisOk sid bt pid = .ok s) := by
  unfold SidekiqServer.with_builder
  split_ifs with h1 h2 h3 h4 <;>
    simp_all [List.length_eq_zero]

/-- C7 witness: a zero-concurrency builder is rejected with
`ZeroConcurrency`, and the concrete `demoBuilder` builds successfully. -/
theorem C7_witness :
    SidekiqServer.with_builder (SidekiqServerBuilder.new.withConcurrency 0) true "rs0" 0 42 =
      .error .ZeroConcurrency ∧
    ∃ s, SidekiqServer.with_builder demoBuilder true "rs0" 0 42 = .ok s :=
  ⟨(C7_build_error_cases (SidekiqServerBuilder.new.withConcurrency 0) true "rs0" 0 42).1.mpr rfl,
   (C7_build_error_cases demoBuilder true "rs0" 0 42).2.2.2
     ⟨by decide,
      fun h => absurd (congrArg List.length h) (by decide),
      fun h => absurd (congrArg List.length h) (by decide),
      rfl⟩⟩

/-- C9: `with_namespace` returns the string unchanged when the namespace is
empty and prepends the namespace and a colon otherwise; it is idempotent
exactly when the namespace is empty, and for a non-empty namespace a double
application prepends the prefix twice. -/
theorem C9_with_namespace_spec (s : SidekiqServer) (str : String) :
    (s.«namespace» = "" → s.with_namespace str = str) ∧
    (s.«namespace» ≠ "" → s.with_namespace str = s.«namespace» ++ ":" ++ str) ∧
    ((∀ x : String, s.with_namespace (s.with_namespace x) = s.with_namespace x) ↔
      s.«namespace» = "") ∧
    (s.«namespace» ≠ "" →
      s.with_namespace (s.with_namespace str) =
        s.«namespace» ++ ":" ++ (s.«namespace» ++ ":" ++ str)) := by
  refine ⟨fun h => by simp [SidekiqServer.with_namespace, h],
          fun h => by simp [SidekiqServer.with_namespace, h],
          ⟨fun hall => ?_, fun h x => by simp [SidekiqServer.with_namespace, h]⟩,
          fun h => by simp [SidekiqServer.with_namespace, h]⟩
  by_contra hne
  have h1 := hall ""
  simp only [SidekiqServer.with_namespace, if_neg hne] at h1
  have h2 := congrArg String.length h1
  have hc : (":" : String).length = 1 := rfl
  have he : ("" : String).length = 0 := rfl
  simp only [String.length_append, hc, he] at h2
  omega

/-- C9 witness: on the namespace "app", a double application prepends twice
and idempotence fails. -/
theorem C9_witness :
    nsServer.«namespace» ≠ "" ∧
    nsServer.with_namespace (nsServer.with_namespace "queue:default") =
      nsServer.«namespace» ++ ":" ++ (nsServer.«namespace» ++ ":" ++ "queue:default") ∧
    ¬ (∀ x : String, nsServer.with_namespace (nsServer.with_namespace x) =
        nsServer.with_namespace x) := by
  have hne : nsServer.«namespace» ≠ "" := by decide
  exact ⟨hne, (C9_with_namespace_spec nsServer "queue:default").2.2.2 hne,
    fun hall => hne ((C9_with_namespace_spec nsServer "queue:default").2.2.1.mp hall)⟩

/-- C3 counterexample: a dispatch that reaches the handler stage (a handler
is registered for the class) whose handler fails. The workers hash entry is
written, but no hdel ever appears in the trace: the delete closure is a
`Future::map` (src/server.rs line 241), skipped when the handler fails, so
"deleted at job end regardless of whether the handler succeeds or fails" is
false on the code. -/
theorem C3_counterexample :
    lookupHandler demoServerH.job_handlers demoJob.«class» = some failingHandler ∧
    ((demoServerH.pack_job demoJob "w1" 0) 0).fst =
      .error (JobAgent.new demoJob, .HandlerError "oops") ∧
    hasHset ((demoServerH.pack_job demoJob "w1" 0) 0).snd = true ∧
    hasHdel ((demoServerH.pack_job demoJob "w1" 0) 0).snd = false :=
  ⟨rfl, rfl, rfl, rfl⟩

/-- C3 (amended): for every dispatch that reaches the handler stage
(registered handler, no middleware stages — as on every built server), the
workers hash entry is written together with a 5-second TTL in one pipelined
call before any handler effect, and the entry is deleted after the handler
returns only when the handler succeeds; when the handler fails no delete is
issued (the entry is left to its TTL). -/
theorem C3_workers_entry_lifecycle (s : SidekiqServer) (job : Job)
    (worker_id : String) (handler : JobHandler) (packT t : Nat)
    (hm : s.middlewares = [])
    (hh : lookupHandler s.job_handlers job.«class» = some handler) :
    (s.pack_job job worker_id packT) t =
      ((handler.run t (JobAgent.new job)).fst,
        [RedisEvent.pipe
          [RedisCmd.hset (s.with_namespace (s.with_server_id "workers")) worker_id
             job.queue job t,
           RedisCmd.expire (s.with_namespace (s.with_server_id "workers")) 5]] ++
        (handler.run t (JobAgent.new job)).snd ++
        (match (handler.run t (JobAgent.new job)).fst with
         | .ok _ => [RedisEvent.single
             (RedisCmd.hdel (s.with_namespace (s.with_server_id "workers")) worker_id)]
         | .error _ => []) ++
        statWrite s packT (handler.run t (JobAgent.new job)).fst) := by
  unfold SidekiqServer.pack_job dispatchCore
  rw [hm]
  simp only [List.foldl_nil]
  rw [show JobAgent.«class» (JobAgent.new job) = job.«class» from rfl, hh]
  rcases hr : handler.run t (JobAgent.new job) with ⟨r, trh⟩
  simp only [JobAgent.new] at hr
  cases r <;>
    simp [handlerStage, fmap, JobHandler.perform, fok, fthen, hr, JobAgent.new,
      JobAgent.queue, statWrite]

/-- C3 witness: the lifecycle theorem applied to the concrete server with a
failing handler at pack time 5 and execution time 7. -/
theorem C3_witness :
    demoServerH.middlewares = [] ∧
    lookupHandler demoServerH.job_handlers demoJob.«class» = some failingHandler ∧
    (demoServerH.pack_job demoJob "w1" 5) 7 =
      ((failingHandler.run 7 (JobAgent.new demoJob)).fst,
        [RedisEvent.pipe
          [RedisCmd.hset (demoServerH.with_namespace (demoServerH.with_server_id "workers"))
             "w1" demoJob.queue demoJob 7,
           RedisCmd.expire
             (demoServerH.with_namespace (demoServerH.with_server_id "workers")) 5]] ++
        (failingHandler.run 7 (JobAgent.new demoJob)).snd ++
        (match (failingHandler.run 7 (JobAgent.new demoJob)).fst with
         | .ok _ => [RedisEvent.single
             (RedisCmd.hdel (demoServerH.with_namespace (demoServerH.with_server_id "workers"))
               "w1")]
         | .error _ => []) ++
        statWrite demoServerH 5 (failingHandler.run 7 (JobAgent.new demoJob)).fst) :=
  ⟨rfl, rfl, C3_workers_entry_lifecycle demoServerH demoJob "w1" failingHandler 5 7 rfl rfl⟩

/-- C4 counterexample: a dispatch packed on UTC day 0 but executed on UTC day
1 writes its stat increment into the day-0 dated key: the embedded date is
the construction-time date, not the date at the instant of the write, so the
claim as stated is false on the code. -/
theorem C4_counterexample :
    dateFormat 86400 ≠ dateFormat 0 ∧
    ((builtServer.pack_job demoJob "w1" 0) 86400).snd =
      [RedisEvent.pipe [RedisCmd.incr "stat:failed:0" 1, RedisCmd.incr "stat:failed" 1]] :=
  ⟨by decide, rfl⟩

/-- C4 (amended): the UTC date embedded in the dated stat key of the terminal
increment is the date of the clock reading taken while `pack_job` constructs
the pipeline — the dated key is independent of the execution time, i.e. the
date is not re-read at the instant the increment is written. -/
theorem C4_stat_date_from_construction (s : SidekiqServer) (job : Job)
    (worker_id : String) (packT t : Nat) :
    ∃ dated undated : String,
      ((dated = s.with_namespace ("stat:processed:" ++ dateFormat packT) ∧
        undated = s.with_namespace "stat:processed") ∨
       (dated = s.with_namespace ("stat:failed:" ++ dateFormat packT) ∧
        undated = s.with_namespace "stat:failed")) ∧
      ((s.pack_job job worker_id packT) t).snd.getLast? =
        some (RedisEvent.pipe [RedisCmd.incr dated 1, RedisCmd.incr undated 1]) := by
  rcases hp : (dispatchCore s job worker_id) t with ⟨r, tr⟩
  have hrun : (s.pack_job job worker_id packT) t = (r, tr ++ statWrite s packT r) := by
    simp [SidekiqServer.pack_job, fthen, hp]
  cases r with
  | ok a =>
    refine ⟨_, _, Or.inl ⟨rfl, rfl⟩, ?_⟩
    rw [hrun]
    simp [statWrite, List.getLast?_concat]
  | error e =>
    refine ⟨_, _, Or.inr ⟨rfl, rfl⟩, ?_⟩
    rw [hrun]
    simp [statWrite, List.getLast?_concat]

/-- C5: the terminal stage of every dispatch appends exactly one pipelined
Redis call after everything else in the trace: the processed pair (dated key
then plain key, each incremented by 1) when the final continuation succeeded,
the failed pair when it failed — never both pairs and never neither. -/
theorem C5_terminal_stat_pair (s : SidekiqServer) (job : Job) (worker_id : String)
    (packT t : Nat) :
    (s.pack_job job worker_id packT) t =
      (((dispatchCore s job worker_id) t).fst,
       ((dispatchCore s job worker_id) t).snd ++
         (match ((dispatchCore s job worker_id) t).fst with
          | .ok _ =>
            [RedisEvent.pipe
              [RedisCmd.incr (s.with_namespace ("stat:processed:" ++ dateFormat packT)) 1,
               RedisCmd.incr (s.with_namespace "stat:processed") 1]]
          | .error _ =>
            [RedisEvent.pipe
              [RedisCmd.incr (s.with_namespace ("stat:failed:" ++ dateFormat packT)) 1,
               RedisCmd.incr (s.with_namespace "stat:failed") 1]])) := by
  rcases hp : (dispatchCore s job worker_id) t with ⟨r, tr⟩
  cases r <;> simp [SidekiqServer.pack_job, fthen, statWrite, hp]

/-- C6: on every server a successful build returns, dispatching a job whose
class has no registered handler (on a built server the registry is empty)
replaces the continuation with the failure `UnknownJobClass(class)`; the
whole trace is the single failed-pair increment — no workers hash entry is
ever written. -/
theorem C6_unknown_class_dispatch (b : SidekiqServerBuilder) (redisOk : Bool)
    (sid : String) (bt pid : Nat) (s : SidekiqServer)
    (hs : SidekiqServer.with_builder b redisOk sid bt pid = .ok s)
    (job : Job) (worker_id : String) (packT t : Nat) :
    lookupHandler s.job_handlers job.«class» = none ∧
    (s.pack_job job worker_id packT) t =
      (.error (JobAgent.new job, .UnknownJobClass job.«class»),
       [RedisEvent.pipe
         [RedisCmd.incr (s.with_namespace ("stat:failed:" ++ dateFormat packT)) 1,
          RedisCmd.incr (s.with_namespace "stat:failed") 1]]) := by
  have hshape := with_builder_ok_shape b redisOk sid bt pid s hs
  subst hshape
  exact ⟨rfl, rfl⟩

/-- C6 witness: the unknown-class dispatch on the concrete built server. -/
theorem C6_witness :
    lookupHandler builtServer.job_handlers demoJob.«class» = none ∧
    (builtServer.pack_job demoJob "w1" 3) 7 =
      (.error (JobAgent.new demoJob, .UnknownJobClass demoJob.«class»),
       [RedisEvent.pipe
         [RedisCmd.incr (builtServer.with_namespace ("stat:failed:" ++ dateFormat 3)) 1,
          RedisCmd.incr (builtServer.with_namespace "stat:failed") 1]]) :=
  C6_unknown_class_dispatch demoBuilder true "rs0" 0 42 builtServer rfl demoJob "w1" 3 7

/-- C8: on a `BRPOP` hit, `poll` decodes the payload into a `Job`, stamps
`retried_at` with the current clock reading into a present `retry_info`,
stamps the namespace field with the server namespace (all other fields
unchanged), and returns that job; a payload that fails to decode makes
`poll` return the decode error instead of a job. -/
theorem C8_poll_decode (s : SidekiqServer) (choice payload : String)
    (parse : String → Except String Job) (pollTime : Nat) :
    (∀ j : Job, parse payload = .ok j →
      s.poll choice (some payload) parse pollTime =
        .ok (some { j with
          «namespace» := s.«namespace»,
          retry_info := j.retry_info.map
            (fun ri => { ri with retried_at := some pollTime }) })) ∧
    (∀ e : String, parse payload = .error e →
      s.poll choice (some payload) parse pollTime = .error (.JobDecodeError e)) := by
  constructor
  · intro j hj
    cases hri : j.retry_info with
    | none => simp [SidekiqServer.poll, hj, hri]
    | some ri => simp [SidekiqServer.poll, hj, hri]
  · intro e he
    simp [SidekiqServer.poll, he]

/-- C8 witness: the decode theorem applied to a payload the concrete parse
function recognizes (a job carrying retry information) and to one it
rejects. -/
theorem C8_witness :
    demoServerH.poll "default" (some "good") demoParse 50 =
      .ok (some { demoRetryJob with
        «namespace» := demoServerH.«namespace»,
        retry_info := demoRetryJob.retry_info.map
          (fun ri => { ri with retried_at := some 50 }) }) ∧
    demoServerH.poll "default" (some "bad") demoParse 50 =
      .error (.JobDecodeError "malformed") :=
  ⟨(C8_poll_decode demoServerH "default" "good" demoParse 50).1 demoRetryJob rfl,
   (C8_poll_decode demoServerH "default" "bad" demoParse 50).2 "malformed" rfl⟩

/-- C10: every server a successful build returns has an empty `worker_info`
map; in the embedding no server operation takes or returns a modified
`worker_info` (`poll`, `pack_job` and `report_alive` are functions of an
immutable server, mirroring that src/server.rs never writes the field after
construction), so the `busy` heartbeat field written by `report_alive` is
always the string "0". -/
theorem C10_worker_info_never_busy (b : SidekiqServerBuilder) (redisOk : Bool)
    (sid : String) (bt pid : Nat) (s : SidekiqServer)
    (hs : SidekiqServer.with_builder b redisOk sid bt pid = .ok s)
    (hostname : String) (now : Nat) :
    s.worker_info = [] ∧
    busyField s.worker_info = "0" ∧
    s.report_alive hostname now =
      [RedisEvent.pipe
        [RedisCmd.hsetMultiple (s.with_namespace (s.identity hostname))
           (renderInfo { hostname := hostname, started_at := s.started_at, pid := s.pid,
                         concurrency := s.concurrency, queues := s.queues,
                         identity := s.identity hostname })
           "0" (toString now),
         RedisCmd.expire (s.with_namespace (s.identity hostname)) 5,
         RedisCmd.sadd (s.with_namespace "processes") (s.identity hostname)]] := by
  have hbz : busyField [] = "0" := by rfl
  have hshape := with_builder_ok_shape b redisOk sid bt pid s hs
  subst hshape
  refine ⟨rfl, hbz, ?_⟩
  simp [SidekiqServer.report_alive, hbz]

/-- C10 witness: the heartbeat of the concrete built server reports busy "0". -/
theorem C10_witness :
    builtServer.worker_info = [] ∧
    busyField builtServer.worker_info = "0" ∧
    builtServer.report_alive "host" 9 =
      [RedisEvent.pipe
        [RedisCmd.hsetMultiple (builtServer.with_namespace (builtServer.identity "host"))
           (renderInfo { hostname := "host", started_at := builtServer.started_at,
                         pid := builtServer.pid, concurrency := builtServer.concurrency,
                         queues := builtServer.queues,
                         identity := builtServer.identity "host" })
           "0" (toString 9),
         RedisCmd.expire (builtServer.with_namespace (builtServer.identity "host")) 5,
         RedisCmd.sadd (builtServer.with_namespace "processes")
           (builtServer.identity "host")]] :=
  C10_worker_info_never_busy demoBuilder true "rs0" 0 42 builtServer rfl "host" 9
